import Mathlib

/-!
Shallow embedding of the movie-dashboard data-transformation pipeline
(`src/lib/transformations/*.ts` and `src/lib/types/*`), together with proofs
of the specified properties.

Modelling conventions:
* JS numbers are modelled as rationals (`ℚ`); `Math.round` is `jsRound`
  (round half towards `+∞`, the ECMAScript semantics), so
  `Math.round(x * 100) / 100` is `round2`.
* JS strings are compared by code unit; `llt` is that lexicographic
  comparison on the character list of a string (all strings appearing in the
  pipeline's comparisons are ASCII month keys and dates, where code-unit,
  code-point and `localeCompare` order coincide).
* `Array.prototype.sort` with a consistent comparator returns a sorted
  permutation of its input; it is modelled by `List.insertionSort`.
* Mutation: the two stages that shallow-copy their input array and then
  update record fields in place are modelled functionally, and the post-call
  contents of the caller's array are given by explicit `..._inputAfter`
  definitions (see their doc comments).
-/

/-- `Math.round` of ECMAScript on exact rationals: round half towards `+∞`. -/
def jsRound (q : ℚ) : ℤ := ⌊q + 1/2⌋

/-- `Math.round(q * 100) / 100`: rounding to 2 decimal places as done
throughout the pipeline. -/
def round2 (q : ℚ) : ℚ := (jsRound (q * 100) : ℚ) / 100

/-- Lexicographic (code-unit) strict comparison of JS strings, on the
character lists. `llt a b = true` iff string `a < b` in JS. -/
def llt : List Char → List Char → Bool
  | [], [] => false
  | [], _ :: _ => true
  | _ :: _, [] => false
  | a :: as, b :: bs => if a < b then true else if b < a then false else llt as bs

/-- JS string `a < b`. -/
def strLtB (a b : String) : Bool := llt a.data b.data

/-- JS string `a <= b` (equivalently `!(b < a)`). -/
def strLeB (a b : String) : Bool := !(llt b.data a.data)

theorem llt_asymm : ∀ (a b : List Char), llt a b = true → llt b a = false
  | [], [] => by simp [llt]
  | [], _ :: _ => by simp [llt]
  | _ :: _, [] => by simp [llt]
  | a :: as, b :: bs => by
      simp only [llt]
      by_cases h1 : a < b
      · simp [h1, lt_asymm h1]
      · by_cases h2 : b < a
        · simp [h1, h2]
        · simpa [h1, h2] using llt_asymm as bs

theorem llt_trans : ∀ (a b c : List Char),
    llt a b = true → llt b c = true → llt a c = true
  | [], [], _ => by simp [llt]
  | [], _ :: _, [] => by simp [llt]
  | [], _ :: _, _ :: _ => by simp [llt]
  | _ :: _, [], _ => by simp [llt]
  | _ :: _, _ :: _, [] => by simp [llt]
  | a :: as, b :: bs, c :: cs => by
      simp only [llt]
      by_cases h1 : a < b <;> by_cases h2 : b < c
      · simp [h1, h2, lt_trans h1 h2, lt_asymm (lt_trans h1 h2)]
      · by_cases h3 : c < b
        · simp [h2, h3]
        · have hbc : b = c := le_antisymm (not_lt.mp h3) (not_lt.mp h2)
          subst hbc
          simp [h1, lt_asymm h1]
      · by_cases h0 : b < a
        · simp [h1, h0]
        · have hab : a = b := le_antisymm (not_lt.mp h0) (not_lt.mp h1)
          subst hab
          simp [h2, lt_asymm h2]
      · by_cases h0 : b < a
        · simp [h1, h0]
        · by_cases h3 : c < b
          · simp [h2, h3]
          · have hab : a = b := le_antisymm (not_lt.mp h0) (not_lt.mp h1)
            have hbc : b = c := le_antisymm (not_lt.mp h3) (not_lt.mp h2)
            subst hab; subst hbc
            simpa [h1] using llt_trans as bs cs

theorem llt_conn : ∀ (a b : List Char), llt a b = false → llt b a = false → a = b
  | [], [] => by simp
  | [], _ :: _ => by simp [llt]
  | _ :: _, [] => by simp [llt]
  | a :: as, b :: bs => by
      simp only [llt]
      by_cases h1 : a < b
      · simp [h1]
      · by_cases h2 : b < a
        · simp [h1, h2]
        · have hab : a = b := le_antisymm (not_lt.mp h2) (not_lt.mp h1)
          subst hab
          intro ha hb
          simp only [h1, if_false] at ha hb
          simp [llt_conn as bs ha hb]

theorem string_data_eq {a b : String} (h : a.data = b.data) : a = b := by
  cases a; cases b; exact congrArg String.mk h

theorem strLeB_total (a b : String) : strLeB a b = true ∨ strLeB b a = true := by
  unfold strLeB
  rcases h : llt b.data a.data with _ | _
  · simp
  · simp [llt_asymm _ _ h]

theorem strLeB_trans (a b c : String) :
    strLeB a b = true → strLeB b c = true → strLeB a c = true := by
  unfold strLeB
  simp only [Bool.not_eq_true']
  intro hba hcb
  rcases hca : llt c.data a.data with _ | _
  · rfl
  · rcases hbc : llt b.data c.data with _ | _
    · have : b.data = c.data := llt_conn _ _ hbc hcb
      rw [← this] at hca
      rw [hca] at hba
      exact hba
    · have : llt b.data a.data = true := llt_trans _ _ _ hbc hca
      rw [this] at hba
      exact hba

theorem strLeB_ne_lt {a b : String} (hle : strLeB a b = true) (hne : a ≠ b) :
    strLtB a b = true := by
  unfold strLeB at hle
  unfold strLtB
  simp only [Bool.not_eq_true'] at hle
  rcases hab : llt a.data b.data with _ | _
  · exact absurd (string_data_eq (llt_conn _ _ hab hle)) hne
  · rfl

/-! ## Data model (`src/lib/types/tmdb.ts`, `src/lib/types/dashboard.ts`) -/

/-- A TMDB movie record (`Movie` in `tmdb.ts`). -/
structure Movie where
  id : Int
  title : String
  original_title : String
  overview : String
  poster_path : Option String
  backdrop_path : Option String
  release_date : String
  adult : Bool
  genre_ids : List Int
  original_language : String
  popularity : ℚ
  vote_average : ℚ
  vote_count : Int
  video : Bool
deriving DecidableEq

/-- A TMDB genre (`Genre` in `tmdb.ts`). -/
structure Genre where
  id : Int
  name : String
deriving DecidableEq

/-- One month of aggregated data (`MonthlyData` in `dashboard.ts`); the four
optional fields model the optional (`?`) TS fields added by later stages. -/
structure MonthlyData where
  month : String
  year : Int
  movies_count : Nat
  avg_popularity : ℚ
  avg_vote_average : ℚ
  total_vote_count : Int
  popularity_change_percent : Option ℚ
  vote_change_percent : Option ℚ
  popularity_moving_avg : Option ℚ
  vote_moving_avg : Option ℚ
deriving DecidableEq

/-- A ranked movie (`TopMovie` in `dashboard.ts`). -/
structure TopMovie where
  id : Int
  title : String
  popularity : ℚ
  vote_average : ℚ
  poster_path : Option String
  genre_names : List String
  release_date : String
deriving DecidableEq

/-- Per-genre distribution record (`GenreDistribution` in `dashboard.ts`). -/
structure GenreDistribution where
  genre_id : Int
  genre_name : String
  count : Nat
  percentage : ℚ
  avg_popularity : ℚ
  avg_vote_average : ℚ
deriving DecidableEq

/-- User filters (`DashboardFilters` in `dashboard.ts`); `sortBy` is kept as a
plain string since the pipeline never reads it. -/
structure DashboardFilters where
  startDate : String
  endDate : String
  genres : List Int
  sortBy : String
  minVoteCount : Int
deriving DecidableEq

/-- The `date_range` sub-object of `DashboardData`; the source field `end` is
renamed `stop` (`end` is a Lean keyword). -/
structure DateRange where
  start : String
  stop : String
deriving DecidableEq

/-- Final aggregate (`DashboardData` in `dashboard.ts`). -/
structure DashboardData where
  monthly_data : List MonthlyData
  top_movies : List TopMovie
  genre_distribution : List GenreDistribution
  total_movies : Nat
  date_range : DateRange
  filters_applied : DashboardFilters
deriving DecidableEq

/-! ## Stage 1: monthly aggregation (`temporal-aggregation.ts`) -/

/-- Numeric value of a decimal digit character. -/
def digitVal (c : Char) : Nat := c.toNat - 48

def isLeapYear (y : Nat) : Bool := (y % 4 == 0 && y % 100 != 0) || y % 400 == 0

def daysInMonth (y mo : Nat) : Nat :=
  if mo = 2 then (if isLeapYear y then 29 else 28)
  else if mo = 4 || mo = 6 || mo = 9 || mo = 11 then 30
  else 31

/-- Parse of a release-date string: models `Date.parse` / `new Date(s)` (in
UTC) restricted to the ISO `YYYY-MM-DD` calendar-date strings the catalog
supplies, returning `(year, month, day)`.  A malformed or out-of-range
date yields `none` (JS `NaN`); a date-time continuation after the calendar
date (`...T...`) is accepted without validating the time part. -/
def parseRelease (s : String) : Option (Nat × Nat × Nat) :=
  match s.data with
  | y1 :: y2 :: y3 :: y4 :: '-' :: m1 :: m2 :: '-' :: d1 :: d2 :: rest =>
      if y1.isDigit && y2.isDigit && y3.isDigit && y4.isDigit &&
          m1.isDigit && m2.isDigit && d1.isDigit && d2.isDigit &&
          (rest.isEmpty || rest.headD ' ' == 'T') then
        let y := 1000 * digitVal y1 + 100 * digitVal y2 + 10 * digitVal y3 + digitVal y4
        let mo := 10 * digitVal m1 + digitVal m2
        let d := 10 * digitVal d1 + digitVal d2
        if 1 ≤ mo && mo ≤ 12 && 1 ≤ d && d ≤ daysInMonth y mo then some (y, mo, d)
        else none
      else none
  | _ => none

/-- The date filter of `aggregateByMonth` step 1: truthy `release_date`,
length at least 10, and `Date.parse` does not yield `NaN`. -/
def hasValidDate (m : Movie) : Bool :=
  (m.release_date != "") && decide (10 ≤ m.release_date.length) &&
    (parseRelease m.release_date).isSome

/-- `(releaseDate.getMonth() + 1).toString().padStart(2, '0')`. -/
def pad2 (n : Nat) : String := if n < 10 then "0" ++ toString n else toString n

/-- The grouping key `` `${year}-${month}` `` of a movie. -/
def movieMonthKey (m : Movie) : String :=
  match parseRelease m.release_date with
  | some (y, mo, _) => toString y ++ "-" ++ pad2 mo
  | none => ""

/-- Keys of a JS `Map` in insertion order: first occurrence of each distinct
element, in order.  `seen` accumulates the keys already inserted. -/
def firstOccurrencesAux {α : Type} [DecidableEq α] : List α → List α → List α
  | _, [] => []
  | seen, k :: ks =>
      if k ∈ seen then firstOccurrencesAux seen ks
      else k :: firstOccurrencesAux (k :: seen) ks

/-- The distinct elements of a list in order of first occurrence (the key
order of the `moviesByMonth` / `genreStats` maps). -/
def distinctKeys {α : Type} [DecidableEq α] (l : List α) : List α :=
  firstOccurrencesAux [] l

/-- `parseInt(monthKey.split('-')[0])` for the keys produced above. -/
def strToNat (s : String) : Nat := s.data.foldl (fun a c => 10 * a + digitVal c) 0

def yearOfKey (k : String) : Nat := strToNat (k.takeWhile (fun c => c != '-'))

/-- The `MonthlyData` record built for one month group (step 3 of
`aggregateByMonth`). -/
def mkMonthlyRecord (key : String) (group : List Movie) : MonthlyData :=
  { month := key
  , year := (yearOfKey key : Int)
  , movies_count := group.length
  , avg_popularity := round2 ((group.map (·.popularity)).sum / (group.length : ℚ))
  , avg_vote_average := round2 ((group.map (·.vote_average)).sum / (group.length : ℚ))
  , total_vote_count := (group.map (·.vote_count)).sum
  , popularity_change_percent := none
  , vote_change_percent := none
  , popularity_moving_avg := none
  , vote_moving_avg := none }

/-- The final sort of `aggregateByMonth`: ascending by
`a.month.localeCompare(b.month)`. -/
def monthLe (a b : MonthlyData) : Prop := strLeB a.month b.month = true

instance monthLe_dec : DecidableRel monthLe :=
  fun a b => instDecidableEqBool (strLeB a.month b.month) true

instance monthLe_total : IsTotal MonthlyData monthLe :=
  ⟨fun a b => strLeB_total a.month b.month⟩

instance monthLe_trans : IsTrans MonthlyData monthLe :=
  ⟨fun a b c => strLeB_trans a.month b.month c.month⟩

/-- `aggregateByMonth` after its step-1 date filter: group the surviving
movies by month key (JS `Map`, insertion order), build one record per group,
and sort ascending by month key. -/
def aggregateOfValid (validMovies : List Movie) : List MonthlyData :=
  let keys := distinctKeys (validMovies.map movieMonthKey)
  let monthly := keys.map
    (fun k => mkMonthlyRecord k (validMovies.filter (fun m => movieMonthKey m == k)))
  List.insertionSort monthLe monthly

/-- `aggregateByMonth` of `temporal-aggregation.ts` (the `genres` argument is
part of the signature but unused, as in the source). -/
def aggregateByMonth (movies : List Movie) (genres : List Genre) : List MonthlyData :=
  aggregateOfValid (movies.filter hasValidDate)

/-- `filterByDateRange` of `temporal-aggregation.ts`: keep records whose
month key lies between the two bounds truncated to `YYYY-MM`
(`substring(0, 7)`), inclusive, by JS string comparison. -/
def filterByDateRange (monthlyData : List MonthlyData) (startDate endDate : String) :
    List MonthlyData :=
  let start := startDate.take 7
  let stop := endDate.take 7
  monthlyData.filter (fun d => strLeB start d.month && strLeB d.month stop)

/-! ## Stage 2: percent change (`percentage-change.ts`) -/

/-- `calculatePercentChange` of `percentage-change.ts`. -/
def calculatePercentChange (previousValue currentValue : ℚ) : ℚ :=
  if previousValue = 0 then (if currentValue = 0 then 0 else 100)
  else round2 ((currentValue - previousValue) / previousValue * 100)

/-- One iteration of the loop of `calculatePercentageChange`: set the two
change fields of `current` from `previous`. -/
def applyPctChange (previous current : MonthlyData) : MonthlyData :=
  { current with
    popularity_change_percent :=
      some (calculatePercentChange previous.avg_popularity current.avg_popularity)
  , vote_change_percent :=
      some (calculatePercentChange previous.avg_vote_average current.avg_vote_average) }

/-- The loop of `calculatePercentageChange` for indices `1..`: at step `i` the
array cell `i - 1` already holds the record updated in the previous iteration,
so the updated record is threaded through as `prev` (its `avg_*` fields, the
only ones read, are unchanged by the update). -/
def pctChangeLoop : MonthlyData → List MonthlyData → List MonthlyData
  | _, [] => []
  | prev, cur :: rest =>
      let cur' := applyPctChange prev cur
      cur' :: pctChangeLoop cur' rest

/-- `calculatePercentageChange` of `percentage-change.ts`: value of the array
it returns. -/
def calculatePercentageChange (monthlyData : List MonthlyData) : List MonthlyData :=
  if monthlyData.length < 2 then monthlyData
  else
    match monthlyData with
    | [] => []
    | first :: rest => first :: pctChangeLoop first rest

/-- Contents of the caller's input array after `calculatePercentageChange`
returns.  In the source the returned array is `[...monthlyData]`, a shallow
copy: it shares every record object with the input array, and the loop then
assigns `current.popularity_change_percent` / `current.vote_change_percent`
in place on those shared records.  Hence after the call the input array holds
exactly the records of the returned array (and for length < 2 the input is
returned untouched, which the same equation covers since the function is then
the identity). -/
def calculatePercentageChange_inputAfter (monthlyData : List MonthlyData) :
    List MonthlyData :=
  calculatePercentageChange monthlyData

/-! ## Stage 3: rolling window (`rolling-window.ts`) -/

/-- A throwaway record used only as the default of `List.getD` at indices that
are proved in range. -/
def mdDummy : MonthlyData :=
  { month := "", year := 0, movies_count := 0, avg_popularity := 0
  , avg_vote_average := 0, total_vote_count := 0
  , popularity_change_percent := none, vote_change_percent := none
  , popularity_moving_avg := none, vote_moving_avg := none }

/-- `dataWithMovingAvg.slice(i - windowSize + 1, i + 1)`: the window of
`windowSize` records ending at index `i`.  The loop mutates only the two
moving-average fields, which the window sums never read, so the window can be
taken from the original list. -/
def windowAt (l : List MonthlyData) (w i : Nat) : List MonthlyData :=
  (l.drop (i + 1 - w)).take w

/-- The record at index `i` after the loop of `calculateRollingAverage`:
for `i ≥ windowSize - 1` the two moving-average fields are set from the
window sums, otherwise the record is untouched. -/
def rollAt (l : List MonthlyData) (w i : Nat) : MonthlyData :=
  let cur := l.getD i mdDummy
  if w - 1 ≤ i then
    { cur with
      popularity_moving_avg :=
        some (round2 (((windowAt l w i).map (·.avg_popularity)).sum / (w : ℚ)))
    , vote_moving_avg :=
        some (round2 (((windowAt l w i).map (·.avg_vote_average)).sum / (w : ℚ))) }
  else cur

/-- `calculateRollingAverage` of `rolling-window.ts`: value of the array it
returns. -/
def calculateRollingAverage (monthlyData : List MonthlyData) (windowSize : Nat) :
    List MonthlyData :=
  if windowSize < 1 || decide (monthlyData.length < windowSize) then monthlyData
  else (List.range monthlyData.length).map (rollAt monthlyData windowSize)

/-- Contents of the caller's input array after `calculateRollingAverage`
returns: as in `calculatePercentageChange_inputAfter`, the source makes a
shallow copy and assigns the two moving-average fields in place on the shared
records, so the input array ends up holding the returned records. -/
def calculateRollingAverage_inputAfter (monthlyData : List MonthlyData)
    (windowSize : Nat) : List MonthlyData :=
  calculateRollingAverage monthlyData windowSize

/-! ## Stage 4: top movies (`top-movies.ts`) -/

/-- The four ranking criteria of `getTopMovies`. -/
inductive Criteria where
  | popularity
  | vote_average
  | vote_count
  | combined
deriving DecidableEq

/-- JS truthiness of a string: non-empty. -/
def truthyStr (s : String) : Bool := s != ""

/-- JS truthiness of `poster_path : string | null`: non-null and non-empty. -/
def truthyPoster : Option String → Bool
  | none => false
  | some s => s != ""

/-- The step-1 filter of `getTopMovies`. -/
def isValidTopMovie (m : Movie) : Bool :=
  truthyStr m.title && truthyPoster m.poster_path && truthyStr m.release_date &&
    decide (0 < m.popularity) && decide (100 ≤ m.vote_count)

/-- `enrichMovieWithGenres` of `top-movies.ts`: project the movie onto the
`TopMovie` shape, rounding the two metrics and resolving genre ids to names
(first matching genre; unresolvable ids dropped, order preserved). -/
def enrichMovieWithGenres (movie : Movie) (genres : List Genre) : TopMovie :=
  { id := movie.id
  , title := movie.title
  , popularity := round2 movie.popularity
  , vote_average := round2 movie.vote_average
  , poster_path := movie.poster_path
  , genre_names :=
      movie.genre_ids.filterMap
        (fun gid => (genres.find? (fun g => g.id == gid)).map (·.name))
  , release_date := movie.release_date }

/-- The sort key of `sortMoviesByCriteria`; the `vote_count` case falls back
to popularity as in the source. -/
def criteriaKey : Criteria → TopMovie → ℚ
  | Criteria.popularity => (·.popularity)
  | Criteria.vote_average => (·.vote_average)
  | Criteria.vote_count => (·.popularity)
  | Criteria.combined => fun t => t.popularity / 100 + t.vote_average * 10

/-- Descending order on the selected criterion (comparator
`(a, b) => keyOf b - keyOf a`). -/
def topLe (c : Criteria) (a b : TopMovie) : Prop := criteriaKey c b ≤ criteriaKey c a

instance topLe_dec (c : Criteria) : DecidableRel (topLe c) :=
  fun a b => inferInstanceAs (Decidable (criteriaKey c b ≤ criteriaKey c a))

/-- `sortMoviesByCriteria` of `top-movies.ts`. -/
def sortMoviesByCriteria (movies : List TopMovie) (criteria : Criteria) :
    List TopMovie :=
  List.insertionSort (topLe criteria) movies

/-- `getTopMovies` of `top-movies.ts`: filter, enrich, sort, truncate to
`topN`. -/
def getTopMovies (movies : List Movie) (genres : List Genre) (criteria : Criteria)
    (topN : Nat) : List TopMovie :=
  (sortMoviesByCriteria
      ((movies.filter isValidTopMovie).map (enrichMovieWithGenres · genres))
      criteria).take topN

/-! ## Stage 5: genre distribution (`genre-analysis.ts`) -/

/-- Number of occurrences of genre id `gid` over all movies' `genre_ids`
(each occurrence increments the accumulator in the source loop). -/
def occCount (movies : List Movie) (gid : Int) : Nat :=
  (movies.map (fun m => m.genre_ids.count gid)).sum

/-- Accumulated `totalPopularity` for genre id `gid`. -/
def popSumFor (movies : List Movie) (gid : Int) : ℚ :=
  (movies.map (fun m => (m.genre_ids.count gid : ℚ) * m.popularity)).sum

/-- Accumulated `totalVoteAverage` for genre id `gid`. -/
def voteSumFor (movies : List Movie) (gid : Int) : ℚ :=
  (movies.map (fun m => (m.genre_ids.count gid : ℚ) * m.vote_average)).sum

/-- `genreMap.get(genreId) || `Género ...``: the `Map` keeps the last name
set for an id, and an empty name (falsy) falls back to the synthetic label. -/
def genreNameOf (genres : List Genre) (gid : Int) : String :=
  match genres.reverse.find? (fun g => g.id == gid) with
  | some g => if g.name = "" then "Género " ++ toString gid else g.name
  | none => "Género " ++ toString gid

/-- The `GenreDistribution` record emitted for a genre id with positive
count (step 4 of `analyzeGenreDistribution`). -/
def mkGenreRecord (movies : List Movie) (genres : List Genre) (gid : Int) :
    GenreDistribution :=
  { genre_id := gid
  , genre_name := genreNameOf genres gid
  , count := occCount movies gid
  , percentage :=
      (jsRound ((occCount movies gid : ℚ) / (movies.length : ℚ) * 10000) : ℚ) / 100
  , avg_popularity := round2 (popSumFor movies gid / (occCount movies gid : ℚ))
  , avg_vote_average := round2 (voteSumFor movies gid / (occCount movies gid : ℚ)) }

/-- Descending order by `count` (comparator `(a, b) => b.count - a.count`). -/
def countGe (a b : GenreDistribution) : Prop := b.count ≤ a.count

instance countGe_dec : DecidableRel countGe :=
  fun a b => inferInstanceAs (Decidable (b.count ≤ a.count))

instance countGe_total : IsTotal GenreDistribution countGe :=
  ⟨fun a b => Nat.le_total b.count a.count⟩

instance countGe_trans : IsTrans GenreDistribution countGe :=
  ⟨fun _ _ _ h1 h2 => le_trans h2 h1⟩

/-- `analyzeGenreDistribution` of `genre-analysis.ts`: one record per known
genre id (ids deduplicated by the `Map`, insertion order) with at least one
occurrence, sorted descending by count. -/
def analyzeGenreDistribution (movies : List Movie) (genres : List Genre) :
    List GenreDistribution :=
  List.insertionSort countGe
    (((distinctKeys (genres.map (·.id))).filter
        (fun gid => decide (0 < occCount movies gid))).map
      (mkGenreRecord movies genres))

/-! ## Orchestrator (`transformations/index.ts`) -/

/-- Ascending JS string order, used by the date helpers' `.sort()`. -/
def dateLe (a b : String) : Prop := strLeB a b = true

instance dateLe_dec : DecidableRel dateLe :=
  fun a b => instDecidableEqBool (strLeB a b) true

/-- `getEarliestDate` of `transformations/index.ts`; `today` is the value of
`new Date().toISOString().split('T')[0]`, made an explicit parameter to model
the impure clock read in the fallback branch. -/
def getEarliestDate (movies : List Movie) (today : String) : String :=
  let validDates :=
    List.insertionSort dateLe
      ((movies.filter (fun m => m.release_date != "")).map (·.release_date))
  validDates.headD today

/-- `getLatestDate` of `transformations/index.ts` (sort ascending, reverse,
take the head); `today` as in `getEarliestDate`. -/
def getLatestDate (movies : List Movie) (today : String) : String :=
  let validDates :=
    (List.insertionSort dateLe
      ((movies.filter (fun m => m.release_date != "")).map (·.release_date))).reverse
  validDates.headD today

/-- `transformDashboardData` of `transformations/index.ts`.  `today` models
the clock read by the two date helpers (it is read only in their fallback
branches).  The date-range filter runs only when both bounds are truthy;
stages 4 and 5 receive the original, unfiltered `movies`/`genres`. -/
def transformDashboardData (movies : List Movie) (genres : List Genre)
    (filters : DashboardFilters) (today : String) : DashboardData :=
  let monthly1 := aggregateByMonth movies genres
  let monthly2 :=
    if filters.startDate != "" && filters.endDate != "" then
      filterByDateRange monthly1 filters.startDate filters.endDate
    else monthly1
  let monthly3 := calculatePercentageChange monthly2
  let monthly4 := calculateRollingAverage monthly3 3
  { monthly_data := monthly4
  , top_movies := getTopMovies movies genres Criteria.popularity 10
  , genre_distribution := analyzeGenreDistribution movies genres
  , total_movies := movies.length
  , date_range :=
      { start :=
          if filters.startDate != "" then filters.startDate
          else getEarliestDate movies today
      , stop :=
          if filters.endDate != "" then filters.endDate
          else getLatestDate movies today }
  , filters_applied := filters }

/-! ## Claims -/

/-- C1: for all `previous`, `current`, `calculatePercentChange previous current`
is `((current - previous) / previous) * 100` rounded to 2 decimals when
`previous ≠ 0`; when `previous = 0` it is `0` if `current = 0` and `100`
otherwise; in particular the four documented example values hold. -/
theorem C1_calculatePercentChange :
    (∀ previous current : ℚ, previous ≠ 0 →
        calculatePercentChange previous current
          = round2 ((current - previous) / previous * 100)) ∧
    calculatePercentChange 0 0 = 0 ∧
    (∀ current : ℚ, current ≠ 0 → calculatePercentChange 0 current = 100) ∧
    calculatePercentChange 0 50 = 100 ∧
    calculatePercentChange 80 92 = 15 ∧
    calculatePercentChange 100 85 = -15 := by
  refine ⟨fun p c hp => by simp [calculatePercentChange, hp],
    by simp [calculatePercentChange],
    fun c hc => by simp [calculatePercentChange, hc],
    by norm_num [calculatePercentChange],
    by norm_num [calculatePercentChange, round2, jsRound],
    by norm_num [calculatePercentChange, round2, jsRound]⟩

/-- Witness for C1 at concrete inputs. -/
theorem C1_calculatePercentChange_witness :
    calculatePercentChange 80 92 = round2 ((92 - 80) / 80 * 100) ∧
    calculatePercentChange 0 7 = 100 :=
  ⟨C1_calculatePercentChange.1 80 92 (by norm_num),
   C1_calculatePercentChange.2.2.1 7 (by norm_num)⟩

/-- Concrete two-month input used to exhibit the in-place mutation of
stages 2 and 3. -/
def c2rec1 : MonthlyData :=
  { mdDummy with
    month := "2023-01", movies_count := 1, avg_popularity := 10,
    avg_vote_average := 5 }

def c2rec2 : MonthlyData :=
  { mdDummy with
    month := "2023-02", movies_count := 1, avg_popularity := 20,
    avg_vote_average := 6 }

/-- C2 fails on the code: after `calculatePercentageChange` (resp.
`calculateRollingAverage`) returns, the caller's input array no longer holds
its original records — the shallow copy shares the record objects and the
loop mutates them in place, so the second input record has acquired a
`popularity_change_percent` (resp. `popularity_moving_avg`) value. -/
theorem C2_inputIsMutated :
    calculatePercentageChange_inputAfter [c2rec1, c2rec2] ≠ [c2rec1, c2rec2] ∧
    calculateRollingAverage_inputAfter [c2rec1, c2rec2] 2 ≠ [c2rec1, c2rec2] := by
  constructor
  · intro h
    have h1 : calculatePercentageChange_inputAfter [c2rec1, c2rec2]
        = [c2rec1, applyPctChange c2rec1 c2rec2] := rfl
    rw [h1] at h
    have := congrArg (fun l => (l.getD 1 mdDummy).popularity_change_percent) h
    simp [applyPctChange, c2rec2, mdDummy] at this
  · intro h
    have h1 : calculateRollingAverage_inputAfter [c2rec1, c2rec2] 2
        = [rollAt [c2rec1, c2rec2] 2 0, rollAt [c2rec1, c2rec2] 2 1] := rfl
    rw [h1] at h
    have := congrArg (fun l => (l.getD 1 mdDummy).popularity_moving_avg) h
    simp [rollAt, c2rec2, mdDummy] at this

/-- C10: the date-range filter is applied to the monthly series only when
both bounds are non-empty; with either bound empty the monthly series is the
unfiltered one. -/
theorem C10_dateFilterOnlyWhenBothBounds :
    ∀ (movies : List Movie) (genres : List Genre) (filters : DashboardFilters)
      (today : String),
      (filters.startDate = "" ∨ filters.endDate = "" →
        (transformDashboardData movies genres filters today).monthly_data =
          calculateRollingAverage
            (calculatePercentageChange (aggregateByMonth movies genres)) 3) ∧
      (filters.startDate ≠ "" → filters.endDate ≠ "" →
        (transformDashboardData movies genres filters today).monthly_data =
          calculateRollingAverage
            (calculatePercentageChange
              (filterByDateRange (aggregateByMonth movies genres)
                filters.startDate filters.endDate)) 3) := by
  intro movies genres filters today
  constructor
  · intro h
    have hcond : (filters.startDate != "" && filters.endDate != "") = false := by
      rcases h with h | h <;> simp [h]
    simp [transformDashboardData, hcond]
  · intro h1 h2
    have hcond : (filters.startDate != "" && filters.endDate != "") = true := by
      simp [h1, h2]
    simp [transformDashboardData, hcond]

/-- The all-default filter object (empty date bounds). -/
def emptyFilters : DashboardFilters :=
  { startDate := "", endDate := "", genres := [], sortBy := "popularity.desc"
  , minVoteCount := 0 }

/-- Witness for C10 at a concrete input with an empty start bound. -/
theorem C10_dateFilterOnlyWhenBothBounds_witness :
    (transformDashboardData [] [] emptyFilters "2026-10-12").monthly_data =
      calculateRollingAverage
        (calculatePercentageChange (aggregateByMonth [] [])) 3 :=
  (C10_dateFilterOnlyWhenBothBounds [] [] emptyFilters "2026-10-12").1 (Or.inl rfl)

/-- C8: a movie with empty `release_date` never influences the Monthly
Aggregator (filtering such movies away first yields the same output), yet
`total_movies` counts the whole input, and the Top-N and genre-distribution
stages receive the original unfiltered movie sequence. -/
theorem C8_emptyDateExcludedButCounted :
    ∀ (movies : List Movie) (genres : List Genre) (filters : DashboardFilters)
      (today : String),
      aggregateByMonth (movies.filter (fun m => m.release_date != "")) genres =
        aggregateByMonth movies genres ∧
      (transformDashboardData movies genres filters today).total_movies =
        movies.length ∧
      (transformDashboardData movies genres filters today).top_movies =
        getTopMovies movies genres Criteria.popularity 10 ∧
      (transformDashboardData movies genres filters today).genre_distribution =
        analyzeGenreDistribution movies genres := by
  intro movies genres filters today
  refine ⟨?_, rfl, rfl, rfl⟩
  unfold aggregateByMonth
  congr 1
  rw [List.filter_filter]
  apply List.filter_congr
  intro m _
  rcases hv : hasValidDate m with _ | _
  · simp [hv]
  · have hne : (m.release_date != "") = true := by
      have h0 := hv
      unfold hasValidDate at h0
      simp only [Bool.and_eq_true] at h0
      exact h0.1.1
    simp [hv, hne]

/-- C3: `getTopMovies` returns at most `topN` records, and every returned
record is the enrichment of an input movie with non-empty title, non-null
poster reference, non-empty release date, positive popularity and at least
100 votes. -/
theorem C3_getTopMovies :
    ∀ (movies : List Movie) (genres : List Genre) (criteria : Criteria) (topN : Nat),
      (getTopMovies movies genres criteria topN).length ≤ topN ∧
      ∀ t ∈ getTopMovies movies genres criteria topN,
        ∃ m, m ∈ movies ∧ m.title ≠ "" ∧ m.poster_path ≠ none ∧
          m.release_date ≠ "" ∧ 0 < m.popularity ∧ 100 ≤ m.vote_count ∧
          t = enrichMovieWithGenres m genres := by
  intro movies genres criteria topN
  constructor
  · exact List.length_take_le topN _
  · intro t ht
    have ht2 : t ∈ sortMoviesByCriteria
        ((movies.filter isValidTopMovie).map (enrichMovieWithGenres · genres))
        criteria := List.mem_of_mem_take ht
    have ht3 : t ∈ (movies.filter isValidTopMovie).map
        (enrichMovieWithGenres · genres) := by
      unfold sortMoviesByCriteria at ht2
      exact (List.mem_insertionSort (topLe criteria)).mp ht2
    obtain ⟨m, hmf, rfl⟩ := List.mem_map.mp ht3
    obtain ⟨hm, hvalid⟩ := List.mem_filter.mp hmf
    simp only [isValidTopMovie, Bool.and_eq_true, decide_eq_true_eq, truthyStr,
      bne_iff_ne, ne_eq] at hvalid
    obtain ⟨⟨⟨⟨htit, hpos⟩, hrel⟩, hpop⟩, hvc⟩ := hvalid
    refine ⟨m, hm, htit, ?_, hrel, hpop, hvc, rfl⟩
    cases hp : m.poster_path with
    | none => rw [hp] at hpos; simp [truthyPoster] at hpos
    | some s => simp [hp]

/-- Concrete movie passing the quality filter, used by the C3 witness. -/
def c3movie : Movie :=
  { id := 1, title := "Avatar", original_title := "Avatar", overview := ""
  , poster_path := some "/p.jpg", backdrop_path := none
  , release_date := "2023-05-10", adult := false, genre_ids := [28]
  , original_language := "en", popularity := 150, vote_average := 7
  , vote_count := 2000, video := false }

/-- Witness for C3 at a concrete input. -/
theorem C3_getTopMovies_witness :
    (getTopMovies [c3movie] [] Criteria.popularity 10).length ≤ 10 ∧
    ∃ m, m ∈ [c3movie] ∧ m.title ≠ "" ∧ m.poster_path ≠ none ∧
      m.release_date ≠ "" ∧ 0 < m.popularity ∧ 100 ≤ m.vote_count ∧
      enrichMovieWithGenres c3movie [] = enrichMovieWithGenres m [] := by
  have hval : isValidTopMovie c3movie = true := by
    norm_num [isValidTopMovie, truthyStr, truthyPoster, c3movie]
    decide
  have hlist : getTopMovies [c3movie] [] Criteria.popularity 10
      = [enrichMovieWithGenres c3movie []] := by
    unfold getTopMovies sortMoviesByCriteria
    rw [show ([c3movie].filter isValidTopMovie) = [c3movie] by
      simp [List.filter_cons, hval]]
    rfl
  exact ⟨(C3_getTopMovies [c3movie] [] Criteria.popularity 10).1,
    (C3_getTopMovies [c3movie] [] Criteria.popularity 10).2
      (enrichMovieWithGenres c3movie []) (by rw [hlist]; simp)⟩

/-- For a window that fits and an index in range, the result of
`calculateRollingAverage` at index `i` is `rollAt`. -/
theorem rolling_getElem (l : List MonthlyData) (w i : Nat) (hw : 1 ≤ w)
    (hlen : w ≤ l.length) (hi : i < l.length) :
    (calculateRollingAverage l w)[i]? = some (rollAt l w i) := by
  unfold calculateRollingAverage
  have hg : ¬ ((decide (w < 1) || decide (l.length < w)) = true) := by
    simp only [Bool.or_eq_true, decide_eq_true_eq, not_or, not_lt]
    omega
  rw [if_neg hg, List.getElem?_map _ _ i, List.getElem?_range hi]
  rfl

theorem getElem?_eq_some_getD (l : List MonthlyData) (i : Nat) (h : i < l.length) :
    l[i]? = some (l.getD i mdDummy) := by
  rw [List.getD_eq_getElem?_getD, List.getElem?_eq_getElem h]
  rfl

/-- C4: with window `W`, every index `i ≥ W - 1` receives moving averages
equal to `round2` of the mean of the `W` values ending at `i` (for the two
metrics separately); indices `i < W - 1` are returned exactly as in the
input (so no moving-average value is added there); and an input shorter than
the window (or a window smaller than 1) is returned unchanged. -/
theorem C4_calculateRollingAverage :
    (∀ (l : List MonthlyData) (w : Nat), w < 1 ∨ l.length < w →
        calculateRollingAverage l w = l) ∧
    (∀ (l : List MonthlyData) (w i : Nat), 1 ≤ w → w ≤ l.length → i + 1 < w →
        (calculateRollingAverage l w)[i]? = l[i]?) ∧
    (∀ (l : List MonthlyData) (w i : Nat), 1 ≤ w → w ≤ l.length → i < l.length →
        w ≤ i + 1 →
        (calculateRollingAverage l w)[i]? =
          some { l.getD i mdDummy with
            popularity_moving_avg :=
              some (round2
                (((windowAt l w i).map (·.avg_popularity)).sum / (w : ℚ)))
          , vote_moving_avg :=
              some (round2
                (((windowAt l w i).map (·.avg_vote_average)).sum / (w : ℚ))) }) := by
  refine ⟨?_, ?_, ?_⟩
  · intro l w h
    unfold calculateRollingAverage
    have hg : (decide (w < 1) || decide (l.length < w)) = true := by
      rcases h with h | h <;> simp [h]
    rw [if_pos hg]
  · intro l w i hw hlen hi
    have hi' : i < l.length := by omega
    rw [rolling_getElem l w i hw hlen hi']
    simp only [rollAt]
    rw [if_neg (by omega)]
    exact (getElem?_eq_some_getD l i hi').symm
  · intro l w i hw hlen hi hwi
    rw [rolling_getElem l w i hw hlen hi]
    simp only [rollAt]
    rw [if_pos (by omega)]

/-- Three-month series with popularities 10, 20, 30 (the spec's example). -/
def c4rec (mo : String) (pop : ℚ) : MonthlyData :=
  { mdDummy with
    month := mo, movies_count := 1, avg_popularity := pop, avg_vote_average := 7 }

def c4list : List MonthlyData :=
  [c4rec "2023-01" 10, c4rec "2023-02" 20, c4rec "2023-03" 30]

/-- Witness for C4: on the 10/20/30 series with window 3, only the third
record gets a moving average, and its popularity moving average is 20. -/
theorem C4_calculateRollingAverage_witness :
    (calculateRollingAverage c4list 3)[2]? =
      some { c4list.getD 2 mdDummy with
        popularity_moving_avg :=
          some (round2 (((windowAt c4list 3 2).map (·.avg_popularity)).sum / (3 : ℚ)))
      , vote_moving_avg :=
          some (round2 (((windowAt c4list 3 2).map (·.avg_vote_average)).sum / (3 : ℚ))) } ∧
    round2 (((windowAt c4list 3 2).map (·.avg_popularity)).sum / (3 : ℚ)) = 20 ∧
    (calculateRollingAverage c4list 3)[0]? = c4list[0]? ∧
    (calculateRollingAverage c4list 3)[1]? = c4list[1]? := by
  refine ⟨C4_calculateRollingAverage.2.2 c4list 3 2 (by norm_num)
      (by norm_num [c4list]) (by norm_num [c4list]) (by norm_num),
    ?_,
    C4_calculateRollingAverage.2.1 c4list 3 0 (by norm_num)
      (by norm_num [c4list]) (by norm_num),
    C4_calculateRollingAverage.2.1 c4list 3 1 (by norm_num)
      (by norm_num [c4list]) (by norm_num)⟩
  norm_num [windowAt, c4list, c4rec, mdDummy, round2, jsRound]

theorem firstOccurrencesAux_mem {α : Type} [DecidableEq α] :
    ∀ (seen l : List α) (x : α),
      x ∈ firstOccurrencesAux seen l ↔ x ∈ l ∧ x ∉ seen
  | seen, [], x => by simp [firstOccurrencesAux]
  | seen, k :: ks, x => by
      simp only [firstOccurrencesAux]
      by_cases hk : k ∈ seen
      · rw [if_pos hk]
        rw [firstOccurrencesAux_mem seen ks x]
        simp only [List.mem_cons]
        constructor
        · rintro ⟨hx, hns⟩
          exact ⟨Or.inr hx, hns⟩
        · rintro ⟨hx | hx, hns⟩
          · subst hx; exact absurd hk hns
          · exact ⟨hx, hns⟩
      · rw [if_neg hk]
        simp only [List.mem_cons, firstOccurrencesAux_mem (k :: seen) ks x]
        constructor
        · rintro (rfl | ⟨hx, hns⟩)
          · exact ⟨Or.inl rfl, hk⟩
          · exact ⟨Or.inr hx, fun hs => hns (Or.inr hs)⟩
        · rintro ⟨rfl | hx, hns⟩
          · exact Or.inl rfl
          · by_cases hxk : x = k
            · exact Or.inl hxk
            · exact Or.inr ⟨hx, by simp [hxk, hns]⟩

theorem firstOccurrencesAux_nodup {α : Type} [DecidableEq α] :
    ∀ (seen l : List α), (firstOccurrencesAux seen l).Nodup
  | seen, [] => by simp [firstOccurrencesAux]
  | seen, k :: ks => by
      simp only [firstOccurrencesAux]
      by_cases hk : k ∈ seen
      · rw [if_pos hk]; exact firstOccurrencesAux_nodup seen ks
      · rw [if_neg hk]
        refine List.nodup_cons.mpr ⟨?_, firstOccurrencesAux_nodup (k :: seen) ks⟩
        intro hmem
        exact ((firstOccurrencesAux_mem (k :: seen) ks k).mp hmem).2
          (List.mem_cons_self k seen)

theorem distinctKeys_nodup {α : Type} [DecidableEq α] (l : List α) :
    (distinctKeys l).Nodup := firstOccurrencesAux_nodup [] l

theorem distinctKeys_mem {α : Type} [DecidableEq α] (l : List α) (x : α) :
    x ∈ distinctKeys l ↔ x ∈ l := by
  simp [distinctKeys, firstOccurrencesAux_mem]

/-- C5: the months of `aggregateByMonth`'s output are strictly increasing in
JS string order (hence pairwise distinct), and they are exactly the distinct
month keys of the movies surviving the date filter; the empty input yields
the empty output. -/
theorem C5_aggregateByMonth :
    ∀ (movies : List Movie) (genres : List Genre),
      List.Pairwise (fun a b => strLtB a.month b.month = true)
        (aggregateByMonth movies genres) ∧
      (∀ k : String,
        (∃ r ∈ aggregateByMonth movies genres, r.month = k) ↔
          ∃ m ∈ movies.filter hasValidDate, movieMonthKey m = k) ∧
      aggregateByMonth [] genres = [] := by
  intro movies genres
  have hagg : aggregateByMonth movies genres =
      List.insertionSort monthLe
        ((distinctKeys ((movies.filter hasValidDate).map movieMonthKey)).map
          (fun k => mkMonthlyRecord k
            ((movies.filter hasValidDate).filter (fun m => movieMonthKey m == k)))) :=
    rfl
  have hmonths :
      ((distinctKeys ((movies.filter hasValidDate).map movieMonthKey)).map
        (fun k => mkMonthlyRecord k
          ((movies.filter hasValidDate).filter
            (fun m => movieMonthKey m == k)))).map (·.month) =
      distinctKeys ((movies.filter hasValidDate).map movieMonthKey) := by
    rw [List.map_map]
    exact List.map_id' _
  have hperm := List.perm_insertionSort monthLe
    ((distinctKeys ((movies.filter hasValidDate).map movieMonthKey)).map
      (fun k => mkMonthlyRecord k
        ((movies.filter hasValidDate).filter (fun m => movieMonthKey m == k))))
  have hsorted := List.sorted_insertionSort monthLe
    ((distinctKeys ((movies.filter hasValidDate).map movieMonthKey)).map
      (fun k => mkMonthlyRecord k
        ((movies.filter hasValidDate).filter (fun m => movieMonthKey m == k))))
  have hnodup : ((aggregateByMonth movies genres).map (·.month)).Nodup := by
    rw [hagg]
    have hp := hperm.map (fun r : MonthlyData => r.month)
    rw [hmonths] at hp
    exact hp.nodup_iff.mpr (distinctKeys_nodup _)
  refine ⟨?_, ?_, rfl⟩
  · have hne : List.Pairwise (fun a b : MonthlyData => a.month ≠ b.month)
        (aggregateByMonth movies genres) := List.pairwise_map.mp hnodup
    have hle : List.Pairwise monthLe (aggregateByMonth movies genres) := by
      rw [hagg]; exact hsorted
    exact (hle.and hne).imp (fun h => strLeB_ne_lt h.1 h.2)
  · intro k
    constructor
    · rintro ⟨r, hr, rfl⟩
      rw [hagg] at hr
      have hr2 := (List.mem_insertionSort monthLe).mp hr
      obtain ⟨k', hk', rfl⟩ := List.mem_map.mp hr2
      obtain ⟨m, hm, hkm⟩ :=
        List.mem_map.mp ((distinctKeys_mem _ _).mp hk')
      exact ⟨m, hm, by simpa [mkMonthlyRecord] using hkm⟩
    · rintro ⟨m, hm, rfl⟩
      have hk : movieMonthKey m ∈
          distinctKeys ((movies.filter hasValidDate).map movieMonthKey) :=
        (distinctKeys_mem _ _).mpr (List.mem_map_of_mem _ hm)
      refine ⟨mkMonthlyRecord (movieMonthKey m)
        ((movies.filter hasValidDate).filter
          (fun m' => movieMonthKey m' == movieMonthKey m)), ?_, rfl⟩
      rw [hagg]
      exact (List.mem_insertionSort monthLe).mpr (List.mem_map_of_mem _ hk)

/-- Concrete movie with a valid date, used by the C5 and C9 witnesses. -/
def c5movie : Movie :=
  { id := 2, title := "B", original_title := "B", overview := ""
  , poster_path := none, backdrop_path := none
  , release_date := "2024-03-15", adult := false, genre_ids := []
  , original_language := "en", popularity := 3, vote_average := 6
  , vote_count := 10, video := false }

/-- Witness for C5: a singleton input with release date 2024-03-15 yields a
record for month 2024-03. -/
theorem C5_aggregateByMonth_witness :
    ∃ r ∈ aggregateByMonth [c5movie] [], r.month = "2024-03" :=
  ((C5_aggregateByMonth [c5movie] []).2.1 "2024-03").mpr
    ⟨c5movie, List.mem_filter.mpr ⟨List.mem_singleton.mpr rfl, by decide⟩,
      by decide⟩

/-- `Math.round(x * 10000) / 100` (the source's percentage computation) is
`round2 (x * 100)`. -/
theorem jsRound_10000_eq_round2 (q : ℚ) :
    (jsRound (q * 10000) : ℚ) / 100 = round2 (q * 100) := by
  unfold round2
  rw [show q * 100 * 100 = q * 10000 from by ring]

/-- C6: `analyzeGenreDistribution` emits exactly one record per known genre
id with at least one occurrence among the movies (and none for ids with zero
occurrences), each with `count` the occurrence count and `percentage` equal
to `count / totalMovieCount * 100` rounded to 2 decimals, and the output is
sorted descending by count. -/
theorem C6_analyzeGenreDistribution :
    ∀ (movies : List Movie) (genres : List Genre),
      ((analyzeGenreDistribution movies genres).map (·.genre_id)).Perm
        ((distinctKeys (genres.map (·.id))).filter
          (fun gid => decide (0 < occCount movies gid))) ∧
      (∀ r ∈ analyzeGenreDistribution movies genres,
        0 < r.count ∧ r.count = occCount movies r.genre_id ∧
        r.percentage = round2 ((r.count : ℚ) / (movies.length : ℚ) * 100)) ∧
      List.Pairwise (fun a b => b.count ≤ a.count)
        (analyzeGenreDistribution movies genres) := by
  intro movies genres
  have hdef : analyzeGenreDistribution movies genres =
      List.insertionSort countGe
        (((distinctKeys (genres.map (·.id))).filter
            (fun gid => decide (0 < occCount movies gid))).map
          (mkGenreRecord movies genres)) := rfl
  refine ⟨?_, ?_, ?_⟩
  · rw [hdef]
    refine ((List.perm_insertionSort countGe _).map
      (fun r : GenreDistribution => r.genre_id)).trans ?_
    rw [List.map_map]
    rw [show ((fun r : GenreDistribution => r.genre_id) ∘ mkGenreRecord movies genres)
        = fun gid => gid from rfl]
    rw [List.map_id']
  · intro r hr
    rw [hdef] at hr
    have hr2 := (List.mem_insertionSort countGe).mp hr
    obtain ⟨gid, hgid, rfl⟩ := List.mem_map.mp hr2
    obtain ⟨-, hpos⟩ := List.mem_filter.mp hgid
    rw [decide_eq_true_eq] at hpos
    refine ⟨hpos, rfl, ?_⟩
    simp only [mkGenreRecord]
    exact jsRound_10000_eq_round2 _
  · rw [hdef]
    exact List.sorted_insertionSort countGe _

/-- Concrete one-movie, one-genre input for the C6 witness. -/
def c6movie : Movie :=
  { id := 3, title := "C", original_title := "C", overview := ""
  , poster_path := none, backdrop_path := none
  , release_date := "2022-01-01", adult := false, genre_ids := [28]
  , original_language := "en", popularity := 4, vote_average := 8
  , vote_count := 50, video := false }

def c6genre : Genre := { id := 28, name := "Acción" }

/-- Witness for C6 at a concrete input. -/
theorem C6_analyzeGenreDistribution_witness :
    0 < (mkGenreRecord [c6movie] [c6genre] 28).count ∧
    (mkGenreRecord [c6movie] [c6genre] 28).count =
      occCount [c6movie] (mkGenreRecord [c6movie] [c6genre] 28).genre_id ∧
    (mkGenreRecord [c6movie] [c6genre] 28).percentage =
      round2 (((mkGenreRecord [c6movie] [c6genre] 28).count : ℚ) /
        (([c6movie] : List Movie).length : ℚ) * 100) := by
  have hlist : analyzeGenreDistribution [c6movie] [c6genre]
      = [mkGenreRecord [c6movie] [c6genre] 28] := by
    unfold analyzeGenreDistribution
    rw [show (distinctKeys (([c6genre] : List Genre).map (·.id))).filter
        (fun gid => decide (0 < occCount [c6movie] gid)) = [28] from by decide]
    rfl
  exact (C6_analyzeGenreDistribution [c6movie] [c6genre]).2.1
    (mkGenreRecord [c6movie] [c6genre] 28)
    (by rw [hlist]; exact List.mem_singleton.mpr rfl)

theorem headD_ne_nil {α : Type} {l : List α} (h : l ≠ []) (d1 d2 : α) :
    l.headD d1 = l.headD d2 := by
  cases l with
  | nil => exact absurd rfl h
  | cons a as => rfl

theorem insertionSort_ne_nil {α : Type} (r : α → α → Prop) [DecidableRel r]
    {l : List α} (h : l ≠ []) : List.insertionSort r l ≠ [] := by
  intro hs
  have hp := List.perm_insertionSort r l
  rw [hs] at hp
  exact h hp.symm.eq_nil

theorem getEarliestDate_today_irrelevant (movies : List Movie)
    (h : movies.filter (fun m => m.release_date != "") ≠ []) (t1 t2 : String) :
    getEarliestDate movies t1 = getEarliestDate movies t2 := by
  unfold getEarliestDate
  apply headD_ne_nil
  apply insertionSort_ne_nil
  simpa using h

theorem getLatestDate_today_irrelevant (movies : List Movie)
    (h : movies.filter (fun m => m.release_date != "") ≠ []) (t1 t2 : String) :
    getLatestDate movies t1 = getLatestDate movies t2 := by
  unfold getLatestDate
  apply headD_ne_nil
  simp only [ne_eq, List.reverse_eq_nil_iff]
  apply insertionSort_ne_nil
  simpa using h

/-- C7 counterexample: the full pipeline is not a function of the movie,
genre and filter inputs alone — on an input with no truthy release date and
an empty filter bound, the fallback date-range computation reads the clock,
so two runs on identical inputs but different days produce different
outputs. -/
theorem C7_counterexample :
    transformDashboardData [] [] emptyFilters "2026-01-01" ≠
      transformDashboardData [] [] emptyFilters "2026-01-02" := by
  intro h
  have := congrArg (fun d => d.date_range.start) h
  simp [transformDashboardData, getEarliestDate, emptyFilters] at this

/-- C7 (amended): the pipeline output is independent of the clock — hence
identical across runs on identical inputs — whenever both filter bounds are
non-empty or some movie has a non-empty release date (i.e. whenever the
clock-reading fallback branch is not taken). -/
theorem C7_deterministic :
    ∀ (movies : List Movie) (genres : List Genre) (filters : DashboardFilters)
      (t1 t2 : String),
      ((filters.startDate ≠ "" ∧ filters.endDate ≠ "") ∨
        ∃ m ∈ movies, m.release_date ≠ "") →
      transformDashboardData movies genres filters t1 =
        transformDashboardData movies genres filters t2 := by
  intro movies genres filters t1 t2 h
  unfold transformDashboardData
  rcases h with ⟨h1, h2⟩ | ⟨m, hm, hd⟩
  · simp [h1, h2]
  · have hne : movies.filter (fun m' => m'.release_date != "") ≠ [] := by
      intro hempty
      have hmem : m ∈ movies.filter (fun m' => m'.release_date != "") :=
        List.mem_filter.mpr ⟨hm, by simp [hd]⟩
      rw [hempty] at hmem
      exact absurd hmem (List.not_mem_nil m)
    rw [getEarliestDate_today_irrelevant movies hne t1 t2,
      getLatestDate_today_irrelevant movies hne t1 t2]

/-- Filters with both bounds set, used by the C7 witness. -/
def rangeFilters : DashboardFilters :=
  { startDate := "2023-01-01", endDate := "2023-12-31", genres := []
  , sortBy := "popularity.desc", minVoteCount := 0 }

/-- Witness for the amended C7 at a concrete input. -/
theorem C7_deterministic_witness :
    transformDashboardData [] [] rangeFilters "2026-01-01" =
      transformDashboardData [] [] rangeFilters "2026-01-02" :=
  C7_deterministic [] [] rangeFilters "2026-01-01" "2026-01-02"
    (Or.inl ⟨by decide, by decide⟩)

/-- Single movie whose popularity (1/8 = 0.125) has more than two decimals,
so the month average, which the source rounds to 2 decimals, differs from
the movie's own value. -/
def c9movie : Movie :=
  { id := 4, title := "D", original_title := "D", overview := ""
  , poster_path := none, backdrop_path := none
  , release_date := "2023-05-10", adult := false, genre_ids := []
  , original_language := "en", popularity := 1/8, vote_average := 7
  , vote_count := 5, video := false }

/-- C9 counterexample: the sole movie of month 2023-05 has popularity 0.125,
but the emitted record's `avg_popularity` is 0.13 (the average is rounded to
2 decimals at computation), so it does not equal the movie's popularity. -/
theorem C9_counterexample :
    ∃ r ∈ aggregateByMonth [c9movie] [], r.month = "2023-05" ∧
      r.movies_count = 1 ∧ r.avg_popularity ≠ c9movie.popularity := by
  have hval : hasValidDate c9movie = true := by decide
  have hkey : movieMonthKey c9movie = "2023-05" := by decide
  have hfil : [c9movie].filter hasValidDate = [c9movie] := by
    simp [List.filter_cons, hval]
  have hfil2 : [c9movie].filter (fun m => movieMonthKey m == "2023-05")
      = [c9movie] := by
    simp [List.filter_cons, hkey]
  have hlist : aggregateByMonth [c9movie] []
      = [mkMonthlyRecord "2023-05" [c9movie]] := by
    unfold aggregateByMonth aggregateOfValid
    rw [hfil]
    rw [show distinctKeys ([c9movie].map movieMonthKey) = ["2023-05"] from by
      simp [hkey, distinctKeys, firstOccurrencesAux]]
    dsimp only [List.map_cons, List.map_nil]
    rw [hfil2]
    rfl
  refine ⟨mkMonthlyRecord "2023-05" [c9movie],
    by rw [hlist]; exact List.mem_singleton.mpr rfl, rfl, rfl, ?_⟩
  simp only [mkMonthlyRecord, c9movie]
  norm_num [round2, jsRound]

/-- C9 (amended): when a movie with a valid date is the only one in its
month, the emitted record carries that movie's popularity and vote average
each rounded to 2 decimals (well-defined values; exact equality with the raw
values holds only when they need no rounding). -/
theorem C9_singleMovieMonth :
    ∀ (movies : List Movie) (genres : List Genre) (m : Movie),
      m ∈ movies → hasValidDate m = true →
      (movies.filter hasValidDate).filter
          (fun m' => movieMonthKey m' == movieMonthKey m) = [m] →
      ∃ r ∈ aggregateByMonth movies genres, r.month = movieMonthKey m ∧
        r.movies_count = 1 ∧ r.avg_popularity = round2 m.popularity ∧
        r.avg_vote_average = round2 m.vote_average := by
  intro movies genres m hm hv huniq
  have hmv : m ∈ movies.filter hasValidDate := List.mem_filter.mpr ⟨hm, hv⟩
  have hk : movieMonthKey m ∈
      distinctKeys ((movies.filter hasValidDate).map movieMonthKey) :=
    (distinctKeys_mem _ _).mpr (List.mem_map_of_mem _ hmv)
  refine ⟨mkMonthlyRecord (movieMonthKey m)
    ((movies.filter hasValidDate).filter
      (fun m' => movieMonthKey m' == movieMonthKey m)), ?_, rfl, ?_, ?_, ?_⟩
  · exact (List.mem_insertionSort monthLe).mpr (List.mem_map_of_mem _ hk)
  · rw [huniq]
    rfl
  · rw [huniq]
    simp [mkMonthlyRecord]
  · rw [huniq]
    simp [mkMonthlyRecord]

/-- Witness for the amended C9 at a concrete input. -/
theorem C9_singleMovieMonth_witness :
    ∃ r ∈ aggregateByMonth [c5movie] [], r.month = movieMonthKey c5movie ∧
      r.movies_count = 1 ∧ r.avg_popularity = round2 c5movie.popularity ∧
      r.avg_vote_average = round2 c5movie.vote_average := by
  apply C9_singleMovieMonth [c5movie] [] c5movie (List.mem_singleton.mpr rfl)
    (by decide)
  have hval : hasValidDate c5movie = true := by decide
  rw [show [c5movie].filter hasValidDate = [c5movie] from by
    simp [List.filter_cons, hval]]
  simp [List.filter_cons]
